import Mathlib

/-!
Verification of the yt-search-bar front end.

The program is a single React component (`App` in the repository's main
source file) with two pieces of state, `query : String` (initially `''`)
and `isFocused : Bool` (initially `false`).  Its submit handler
`handleSearch` calls `e.preventDefault()` and, when `query.trim()` is
truthy (non-empty), navigates to
`https://www.youtube.com/results?search_query=${encodeURIComponent(query)}`.
The input's `onChange` stores the field content verbatim, `onFocus` /
`onBlur` toggle the focus flag, and the magnifying-glass icon together
with the shifted input padding is rendered exactly when
`isFocused || query` is truthy.  At module load the analytics
initializer `getAnalytics(app)` is called once, guarded by
`typeof window !== 'undefined'`.

We embed these pieces shallowly: JavaScript's `String.prototype.trim`
(ECMAScript WhiteSpace ∪ LineTerminator), `encodeURIComponent`
(UTF-8 percent-encoding leaving the unreserved marks alone), the event
step function of the component, and the guarded analytics bootstrap.
-/

namespace YtSearchBar

/-- The set of characters removed by JavaScript `String.prototype.trim`:
ECMAScript WhiteSpace (TAB, VT, FF, SP, NBSP, ZWNBSP and the Unicode
Zs category) together with LineTerminator (LF, CR, LS, PS). -/
def jsWhitespace (c : Char) : Bool :=
  let n := c.toNat
  n == 9 || n == 10 || n == 11 || n == 12 || n == 13 || n == 32 ||
  n == 0xA0 || n == 0x1680 || (0x2000 ≤ n && n ≤ 0x200A) ||
  n == 0x2028 || n == 0x2029 || n == 0x202F || n == 0x205F ||
  n == 0x3000 || n == 0xFEFF

/-- Trimming on the character list: drop JS whitespace from the front,
then from the back. -/
def jsTrimList (l : List Char) : List Char :=
  ((l.dropWhile jsWhitespace).reverse.dropWhile jsWhitespace).reverse

/-- JavaScript `query.trim()`. -/
def jsTrim (s : String) : String :=
  ⟨jsTrimList s.data⟩

/-- The characters `encodeURIComponent` leaves unescaped:
`A-Z a-z 0-9 - _ . ! ~ * ' ( )` (given here by code point). -/
def uriUnreserved (n : Nat) : Bool :=
  (65 ≤ n && n ≤ 90) || (97 ≤ n && n ≤ 122) || (48 ≤ n && n ≤ 57) ||
  n == 45 || n == 95 || n == 46 || n == 33 || n == 126 ||
  n == 42 || n == 39 || n == 40 || n == 41

/-- UTF-8 byte sequence of a Unicode code point. -/
def utf8Bytes (n : Nat) : List Nat :=
  if n < 0x80 then [n]
  else if n < 0x800 then
    [0xC0 + n / 64, 0x80 + n % 64]
  else if n < 0x10000 then
    [0xE0 + n / 4096, 0x80 + (n / 64) % 64, 0x80 + n % 64]
  else
    [0xF0 + n / 262144, 0x80 + (n / 4096) % 64, 0x80 + (n / 64) % 64,
     0x80 + n % 64]

/-- Uppercase hexadecimal digit, as `encodeURIComponent` produces. -/
def hexDigit (d : Nat) : Char :=
  if d < 10 then Char.ofNat (48 + d) else Char.ofNat (55 + d)

/-- Percent-escape of one byte, e.g. `%2B`. -/
def percentByte (b : Nat) : List Char :=
  [Char.ofNat 37, hexDigit (b / 16), hexDigit (b % 16)]

/-- `encodeURIComponent` on a single character: unreserved characters
pass through, everything else becomes the percent-escapes of its UTF-8
bytes. -/
def encodeChar (c : Char) : List Char :=
  if uriUnreserved c.toNat then [c]
  else (utf8Bytes c.toNat).flatMap percentByte

/-- JavaScript `encodeURIComponent` (total on Unicode scalar values). -/
def encodeURIComponent (s : String) : String :=
  ⟨s.data.flatMap encodeChar⟩

/-- The component state held by the two `useState` hooks. -/
structure AppState where
  query : String
  isFocused : Bool
  deriving DecidableEq, Repr

/-- `useState('')` and `useState(false)`: the state at load time. -/
def initialState : AppState :=
  { query := "", isFocused := false }

/-- The observable effects of one run of `handleSearch`:
whether `e.preventDefault()` was called, and the list of navigation
targets assigned to `window.location.href`. -/
structure SubmitEffects where
  preventedDefault : Bool
  navigations : List String
  deriving DecidableEq, Repr

/-- Effects of handlers that perform no navigation. -/
def noEffects : SubmitEffects :=
  { preventedDefault := false, navigations := [] }

/-- The URL built by `handleSearch` for a given query. -/
def youtubeSearchUrl (query : String) : String :=
  "https://www.youtube.com/results?search_query=" ++
    encodeURIComponent query

/-- `handleSearch`: always `e.preventDefault()`; navigate exactly once,
to `youtubeSearchUrl query` built from the untrimmed query, when
`query.trim()` is truthy (non-empty); otherwise do nothing. -/
def handleSearch (s : AppState) : SubmitEffects :=
  { preventedDefault := true,
    navigations :=
      if jsTrim s.query = "" then [] else [youtubeSearchUrl s.query] }

/-- The user events the component reacts to. -/
inductive Event where
  | input (t : String)
  | focus
  | blur
  | submit
  deriving DecidableEq, Repr

/-- One reaction of the component: `onChange` stores the field content
verbatim, `onFocus` / `onBlur` set the flag, and submission (form
`onSubmit` or the button's `onClick`) runs `handleSearch` without
touching the state. -/
def step (s : AppState) : Event → AppState × SubmitEffects
  | .input t => ({ s with query := t }, noEffects)
  | .focus => ({ s with isFocused := true }, noEffects)
  | .blur => ({ s with isFocused := false }, noEffects)
  | .submit => (s, handleSearch s)

/-- The controlled input renders `value={query}`: the visible field
content is exactly the stored query. -/
def visibleFieldContent (s : AppState) : String :=
  s.query

/-- The guard `(isFocused || query)` on the magnifying-glass icon:
JavaScript truthiness of a string is non-emptiness. -/
def showSearchIcon (s : AppState) : Bool :=
  s.isFocused || !(s.query == "")

/-- The same guard `(isFocused || query)` selecting the shifted input
padding `pl-8 sm:pl-10` over `pl-3 sm:pl-4`. -/
def inputHasIconPadding (s : AppState) : Bool :=
  s.isFocused || !(s.query == "")

/-- The module-level analytics bootstrap: `analytics` starts `null`,
and `getAnalytics(app)` is called exactly when
`typeof window !== 'undefined'`.  Returns the number of `getAnalytics`
calls and the stored handle (the external call's result `a`). -/
def analyticsStartup (hasWindow : Bool) (a : Unit) : Nat × Option Unit :=
  if hasWindow then (1, some a) else (0, none)

/-- `handleSearch` as run in a page whose analytics bootstrap produced
`analytics`: the handler closes over `query` only and never reads the
`analytics` binding. -/
def handleSearchWithAnalytics (_analytics : Option Unit) (s : AppState) :
    SubmitEffects :=
  handleSearch s

/-! ### List lemmas about `dropWhile` used for the trim facts -/

theorem dropWhile_eq_self_of_none (p : Char → Bool) :
    ∀ l : List Char, (∀ c ∈ l, p c = false) → l.dropWhile p = l := by
  intro l h
  induction l with
  | nil => rfl
  | cons a t ih =>
    have ha : p a = false := h a (List.mem_cons_self a t)
    simp [List.dropWhile, ha]

theorem dropWhile_eq_nil_of_all (p : Char → Bool) :
    ∀ l : List Char, (∀ c ∈ l, p c = true) → l.dropWhile p = [] := by
  intro l h
  induction l with
  | nil => rfl
  | cons a t ih =>
    have ha : p a = true := h a (List.mem_cons_self a t)
    have ht : ∀ c ∈ t, p c = true := fun c hc => h c (List.mem_cons_of_mem a hc)
    simp [List.dropWhile, ha, ih ht]

theorem dropWhile_append_of_all (p : Char → Bool) :
    ∀ a b : List Char, (∀ c ∈ a, p c = true) →
      (a ++ b).dropWhile p = b.dropWhile p := by
  intro a b h
  induction a with
  | nil => rfl
  | cons x t ih =>
    have hx : p x = true := h x (List.mem_cons_self x t)
    have ht : ∀ c ∈ t, p c = true := fun c hc => h c (List.mem_cons_of_mem x hc)
    simp [List.dropWhile, hx, ih ht]

theorem dropWhile_append_of_ne_nil (p : Char → Bool) :
    ∀ l r : List Char, l.dropWhile p ≠ [] →
      (l ++ r).dropWhile p = l.dropWhile p ++ r := by
  intro l r h
  induction l with
  | nil => exact absurd rfl h
  | cons x t ih =>
    by_cases hx : p x = true
    · have ht : t.dropWhile p ≠ [] := by
        simpa [List.dropWhile, hx] using h
      simp [List.dropWhile, hx, ih ht]
    · have hx' : p x = false := by
        cases hpx : p x with
        | false => rfl
        | true => exact absurd hpx hx
      simp [List.dropWhile, hx']

/-! ### Facts about `jsTrimList` -/

theorem jsTrimList_eq_self (l : List Char)
    (h : ∀ c ∈ l, jsWhitespace c = false) : jsTrimList l = l := by
  unfold jsTrimList
  rw [dropWhile_eq_self_of_none jsWhitespace l h]
  rw [dropWhile_eq_self_of_none jsWhitespace l.reverse
        (fun c hc => h c (List.mem_reverse.mp hc))]
  exact List.reverse_reverse l

theorem jsTrimList_eq_nil (l : List Char)
    (h : ∀ c ∈ l, jsWhitespace c = true) : jsTrimList l = [] := by
  unfold jsTrimList
  rw [dropWhile_eq_nil_of_all jsWhitespace l h]
  rfl

theorem jsTrimList_pad (q w1 w2 : List Char)
    (hq : jsTrimList q ≠ [])
    (h1 : ∀ c ∈ w1, jsWhitespace c = true)
    (h2 : ∀ c ∈ w2, jsWhitespace c = true) :
    jsTrimList (w1 ++ q ++ w2) = jsTrimList q := by
  have hq' : q.dropWhile jsWhitespace ≠ [] := by
    intro hnil
    apply hq
    unfold jsTrimList
    rw [hnil]
    rfl
  have step1 : (w1 ++ q ++ w2).dropWhile jsWhitespace
      = q.dropWhile jsWhitespace ++ w2 := by
    rw [List.append_assoc, dropWhile_append_of_all jsWhitespace w1 (q ++ w2) h1,
        dropWhile_append_of_ne_nil jsWhitespace q w2 hq']
  unfold jsTrimList
  rw [step1, List.reverse_append,
      dropWhile_append_of_all jsWhitespace w2.reverse
        ((q.dropWhile jsWhitespace).reverse)
        (fun c hc => h2 c (List.mem_reverse.mp hc))]

/-! ### String-level corollaries -/

theorem data_jsTrim (s : String) : (jsTrim s).data = jsTrimList s.data := rfl

theorem jsTrim_eq_empty_iff (s : String) :
    jsTrim s = "" ↔ jsTrimList s.data = [] := by
  constructor
  · intro h
    have := congrArg String.data h
    simpa [data_jsTrim] using this
  · intro h
    apply String.ext
    simpa [data_jsTrim] using h

/-! ### Claim theorems -/

/-- Claim C1: for every non-empty string with no (JS) whitespace
characters, submitting with that query triggers exactly one
navigation, to the results URL carrying the percent-encoding of the
query. -/
theorem submit_nonwhitespace_navigates_once (s : String) (f : Bool)
    (hne : s ≠ "")
    (hws : ∀ c ∈ s.data, jsWhitespace c = false) :
    (step { query := s, isFocused := f } Event.submit).2.navigations =
      ["https://www.youtube.com/results?search_query=" ++
        encodeURIComponent s] := by
  have htrim : jsTrim s = s := by
    apply String.ext
    simpa [data_jsTrim] using jsTrimList_eq_self s.data hws
  simp [step, handleSearch, htrim, hne, youtubeSearchUrl]

/-- Witness for C1 at the concrete query `"lofi"`. -/
theorem submit_nonwhitespace_navigates_once_witness :
    (step { query := "lofi", isFocused := false } Event.submit).2.navigations =
      ["https://www.youtube.com/results?search_query=" ++
        encodeURIComponent "lofi"] :=
  submit_nonwhitespace_navigates_once "lofi" false (by decide) (by decide)

/-- Claim C2: for every string of only whitespace characters (the empty
string included), submission performs no navigation and leaves the
query and the focus flag unchanged. -/
theorem submit_whitespace_noop (s : String) (f : Bool)
    (hws : ∀ c ∈ s.data, jsWhitespace c = true) :
    (step { query := s, isFocused := f } Event.submit).1 =
        { query := s, isFocused := f } ∧
      (step { query := s, isFocused := f } Event.submit).2.navigations = [] := by
  have htrim : jsTrim s = "" :=
    (jsTrim_eq_empty_iff s).mpr (jsTrimList_eq_nil s.data hws)
  exact ⟨rfl, by simp [step, handleSearch, htrim]⟩

/-- Witness for C2 at the concrete query of three spaces. -/
theorem submit_whitespace_noop_witness :
    (step { query := "   ", isFocused := true } Event.submit).1 =
        { query := "   ", isFocused := true } ∧
      (step { query := "   ", isFocused := true } Event.submit).2.navigations
        = [] :=
  submit_whitespace_noop "   " true (by decide)

/-- Claim C3: wrapping a query whose trimmed form is non-empty in
leading and trailing whitespace never changes the decision to
navigate, and the navigated URL percent-encodes the original,
untrimmed query. -/
theorem submit_padding_gates_only (q w1 w2 : String) (f : Bool)
    (hq : jsTrim q ≠ "")
    (h1 : ∀ c ∈ w1.data, jsWhitespace c = true)
    (h2 : ∀ c ∈ w2.data, jsWhitespace c = true) :
    (step { query := w1 ++ q ++ w2, isFocused := f } Event.submit).2.navigations
      = ["https://www.youtube.com/results?search_query=" ++
          encodeURIComponent (w1 ++ q ++ w2)] := by
  have hq' : jsTrimList q.data ≠ [] := fun h =>
    hq ((jsTrim_eq_empty_iff q).mpr h)
  have hdata : (w1 ++ q ++ w2).data = w1.data ++ q.data ++ w2.data := by
    simp [String.data_append]
  have htrim : jsTrim (w1 ++ q ++ w2) ≠ "" := by
    intro h
    have := (jsTrim_eq_empty_iff _).mp h
    rw [hdata, jsTrimList_pad q.data w1.data w2.data hq' h1 h2] at this
    exact hq' this
  simp [step, handleSearch, htrim, youtubeSearchUrl]

/-- Witness for C3 at `q = "a"`, one leading and one trailing space. -/
theorem submit_padding_gates_only_witness :
    (step { query := " " ++ "a" ++ " ", isFocused := false }
        Event.submit).2.navigations
      = ["https://www.youtube.com/results?search_query=" ++
          encodeURIComponent (" " ++ "a" ++ " ")] :=
  submit_padding_gates_only "a" " " " " false (by decide) (by decide)
    (by decide)

/-- Claim C4: the two scenario queries navigate to their specified
URLs, with space encoded as `%20` and plus as `%2B`. -/
theorem submit_scenario_encodings :
    (step { query := "c++ tutorial", isFocused := false }
        Event.submit).2.navigations
      = ["https://www.youtube.com/results?search_query=c%2B%2B%20tutorial"] ∧
    (step { query := "lofi hip hop radio", isFocused := false }
        Event.submit).2.navigations
      = ["https://www.youtube.com/results?search_query=lofi%20hip%20hop%20radio"] := by
  constructor <;> decide

/-- Claim C5: the input handler stores the field content verbatim — no
trimming, no transformation — and the visible (controlled) field
content equals the stored query. -/
theorem input_stores_verbatim (s : AppState) (t : String) :
    (step s (Event.input t)).1.query = t ∧
      visibleFieldContent (step s (Event.input t)).1 = t ∧
      (step s (Event.input t)).2.navigations = [] :=
  ⟨rfl, rfl, rfl⟩

/-- Claim C6: focus-gain sets the flag true and focus-loss sets it
false, neither touches the query, and `handleSearch` behaves
identically for both flag values. -/
theorem focus_flag_presentational (q : String) (f : Bool) :
    (step { query := q, isFocused := f } Event.focus).1 =
        { query := q, isFocused := true } ∧
      (step { query := q, isFocused := f } Event.blur).1 =
        { query := q, isFocused := false } ∧
      handleSearch { query := q, isFocused := true } =
        handleSearch { query := q, isFocused := false } :=
  ⟨rfl, rfl, rfl⟩

/-- Claim C7: every submission calls `preventDefault`, whether or not
a navigation follows — the host's default form navigation never
happens. -/
theorem submit_always_prevents_default (s : AppState) :
    (step s Event.submit).2.preventedDefault = true :=
  rfl

/-- Claim C8: at load time the state is the initial one — empty query
and unfocused. -/
theorem initial_state_empty_unfocused :
    initialState.query = "" ∧ initialState.isFocused = false :=
  ⟨rfl, rfl⟩

/-- Claim C9: the analytics initializer runs exactly once at startup
when a browser context is present and not at all otherwise, and the
submit handler's behavior does not depend on the analytics handle. -/
theorem analytics_isolated :
    (∀ a : Unit, (analyticsStartup true a).1 = 1) ∧
      (∀ a : Unit, (analyticsStartup false a).1 = 0) ∧
      ∀ (a b : Option Unit) (s : AppState),
        handleSearchWithAnalytics a s = handleSearchWithAnalytics b s :=
  ⟨fun _ => rfl, fun _ => rfl, fun _ _ _ => rfl⟩

/-- Claim C10: the icon (and the matching shifted padding) is shown
exactly when the focus flag is true or the query is non-empty; in
particular it persists after blur whenever text remains. -/
theorem icon_shown_iff_focused_or_text (s : AppState) (q : String) :
    (showSearchIcon s = true ↔ s.isFocused = true ∨ s.query ≠ "") ∧
      inputHasIconPadding s = showSearchIcon s ∧
      showSearchIcon (step { query := q, isFocused := true } Event.blur).1
        = !(q == "") := by
  refine ⟨?_, rfl, ?_⟩
  · unfold showSearchIcon
    rcases s with ⟨q', f⟩
    cases f <;> simp
  · simp [step, showSearchIcon]

end YtSearchBar
